/-
Verification of the day-12 n-body simulator (src/day12/solution.py):
body model, per-step update semantics, energy, momentum conservation,
snapshot immutability, and the per-axis cycle detection algorithm.
-/
import Mathlib

set_option maxRecDepth 100000
set_option maxHeartbeats 4000000

namespace Day12

/-- Axis label: the dynamic dimension key used by the Python code
(the string 'x', 'y' or 'z' fed to `__dict__`). -/
inductive Dim where
  | x
  | y
  | z
deriving DecidableEq, Repr

/-- Coordinates: an integer 3-vector, used for position, velocity and
accumulated gravity. -/
structure Coordinates where
  x : Int
  y : Int
  z : Int
deriving DecidableEq, Repr

/-- Dynamic per-axis field access, `coords.__dict__[dimension]`. -/
def Coordinates.dim (c : Coordinates) : Dim → Int
  | Dim.x => c.x
  | Dim.y => c.y
  | Dim.z => c.z

/-- Velocity.accelerate: add the gravity vector componentwise. -/
def Coordinates.accelerate (v g : Coordinates) : Coordinates :=
  ⟨v.x + g.x, v.y + g.y, v.z + g.z⟩

/-- Position.move: add the velocity vector componentwise. -/
def Coordinates.move (p v : Coordinates) : Coordinates :=
  ⟨p.x + v.x, p.y + v.y, p.z + v.z⟩

/-- Star: one body, with position, velocity and per-step accumulated
gravity. -/
structure Star where
  position : Coordinates
  velocity : Coordinates
  gravity : Coordinates
deriving DecidableEq, Repr

/-- One-dimensional gravity contribution to `self` from comparing its
coordinate `a` with the other star's coordinate `b`
(compareIndividualDimension adds this to self's gravity and its
negation to the other's). -/
def gravPull (a b : Int) : Int :=
  if a > b then -1 else if a < b then 1 else 0

/-- Star.updateGForceForPair: compare positions per axis and update both
stars' accumulated gravity; returns the updated (self, other). -/
def Star.updateGForceForPair (s o : Star) : Star × Star :=
  let gx := gravPull s.position.x o.position.x
  let gy := gravPull s.position.y o.position.y
  let gz := gravPull s.position.z o.position.z
  ({ s with gravity := ⟨s.gravity.x + gx, s.gravity.y + gy, s.gravity.z + gz⟩ },
   { o with gravity := ⟨o.gravity.x - gx, o.gravity.y - gy, o.gravity.z - gz⟩ })

/-- Star.updateVelocity: velocity += gravity. -/
def Star.updateVelocity (s : Star) : Star :=
  { s with velocity := s.velocity.accelerate s.gravity }

/-- Star.updatePosition: position += velocity. -/
def Star.updatePosition (s : Star) : Star :=
  { s with position := s.position.move s.velocity }

/-- Star._potentialEnergy: sum of absolute position components. -/
def Star.potentialEnergy (s : Star) : Int :=
  |s.position.x| + |s.position.y| + |s.position.z|

/-- Star._kineticEnergy: sum of absolute velocity components. -/
def Star.kineticEnergy (s : Star) : Int :=
  |s.velocity.x| + |s.velocity.y| + |s.velocity.z|

/-- Star.energy: potential times kinetic. -/
def Star.energy (s : Star) : Int :=
  s.potentialEnergy * s.kineticEnergy

/-- Inner sweep of the `combinations(self.stars, 2)` loop: pair the star
`s` against every later star in order, threading the updates through. -/
def pairSweep (s : Star) : List Star → Star × List Star
  | [] => (s, [])
  | o :: rest =>
    let p := Star.updateGForceForPair s o
    let r := pairSweep p.1 rest
    (r.1, p.2 :: r.2)

/-- Full `combinations(self.stars, 2)` loop: every unordered pair exactly
once, in combinations order, all mutations threaded.  The extra `Nat`
argument is structural fuel, always called with the list length. -/
def sweepAll : Nat → List Star → List Star
  | _, [] => []
  | 0, l => l
  | n + 1, s :: rest =>
    let r := pairSweep s rest
    r.1 :: sweepAll n r.2

/-- Gravity accumulation over all unordered pairs of the list. -/
def updateGForceAllPairs (stars : List Star) : List Star :=
  sweepAll stars.length stars

/-- Reset of a star's accumulated gravity (`star.gravity = Gravity()`). -/
def clearGravity (s : Star) : Star :=
  { s with gravity := ⟨0, 0, 0⟩ }

/-- System._updateSystemByOneStep acting on the live star list: clear all
gravity, accumulate pairwise gravity, then per star update velocity and
then position. -/
def updateSystemByOneStep (stars : List Star) : List Star :=
  (updateGForceAllPairs (stars.map clearGravity)).map
    fun s => s.updateVelocity.updatePosition

/-- Iterated step (`runSimulation`'s loop body applied n times). -/
def stepN : Nat → List Star → List Star
  | 0, stars => stars
  | n + 1, stars => updateSystemByOneStep (stepN n stars)

/-- System._isSystemAtInitialStateOnDimension: on the given axis, every
live star's position and velocity match the snapshot entry at the same
index (an `all` over `zip(self.stars, self.starsIntial)`). -/
def isSystemAtInitialStateOnDimension (d : Dim) (stars starsIntial : List Star) : Bool :=
  (stars.zip starsIntial).all fun p =>
    p.1.position.dim d == p.2.position.dim d && p.1.velocity.dim d == p.2.velocity.dim d

/-- lcm of the Python source: a * b // gcd(a, b). -/
def lcm (a b : Nat) : Nat :=
  a * b / Nat.gcd a b

/-- The mutable state of getSystemCycle's while loop: the live stars,
the step count so far, and the three per-axis cycle registers
(0 = not yet found). -/
structure LoopState where
  stars : List Star
  count : Nat
  xC : Nat
  yC : Nat
  zC : Nat
deriving DecidableEq, Repr

/-- The while loop of getSystemCycle.  The Nat argument is fuel, a model
artifact bounding the number of iterations (the Python loop is
unbounded); the loop returns its whole final state so that runs can be
composed.  The loop-exit test `not (xCycle and yCycle and zCycle)`
is rendered as all three registers being nonzero. -/
def getSystemCycleLoop (init : List Star) : Nat → LoopState → Option Nat × LoopState
  | 0, σ =>
    if σ.xC ≠ 0 ∧ σ.yC ≠ 0 ∧ σ.zC ≠ 0 then (some (lcm σ.xC (lcm σ.yC σ.zC)), σ)
    else (none, σ)
  | fuel + 1, σ =>
    if σ.xC ≠ 0 ∧ σ.yC ≠ 0 ∧ σ.zC ≠ 0 then (some (lcm σ.xC (lcm σ.yC σ.zC)), σ)
    else
      let stars' := updateSystemByOneStep σ.stars
      let count' := σ.count + 1
      let xC' := if σ.xC = 0 ∧ isSystemAtInitialStateOnDimension Dim.x stars' init then count' else σ.xC
      let yC' := if σ.yC = 0 ∧ isSystemAtInitialStateOnDimension Dim.y stars' init then count' else σ.yC
      let zC' := if σ.zC = 0 ∧ isSystemAtInitialStateOnDimension Dim.z stars' init then count' else σ.zC
      getSystemCycleLoop init fuel ⟨stars', count', xC', yC', zC'⟩

/-- System: live stars, the immutable initial snapshot (source spelling
`starsIntial` kept), and the configured step count. -/
structure System where
  stars : List Star
  starsIntial : List Star
  requiredSteps : Nat
deriving DecidableEq, Repr

/-- System.addStar: append a copy of the star to both the live list and
the snapshot. -/
def System.addStar (sys : System) (star : Star) : System :=
  { sys with stars := sys.stars ++ [star], starsIntial := sys.starsIntial ++ [star] }

/-- System.reset: replace the live list by a copy of the snapshot. -/
def System.reset (sys : System) : System :=
  { sys with stars := sys.starsIntial }

/-- System.runSimulation: step requiredSteps times. -/
def System.runSimulation (sys : System) : System :=
  { sys with stars := stepN sys.requiredSteps sys.stars }

/-- System.getTotalEnergy: sum of the stars' energies. -/
def System.getTotalEnergy (sys : System) : Int :=
  (sys.stars.map Star.energy).sum

/-- System._updateSystemByOneStep as a System operation. -/
def System.updateSystemByOneStep (sys : System) : System :=
  { sys with stars := Day12.updateSystemByOneStep sys.stars }

/-- System.getSystemCycle: run the cycle-detection loop from the live
state, checking against the snapshot; returns the cycle length and the
mutated system. -/
def System.getSystemCycle (sys : System) (fuel : Nat) : Option Nat × System :=
  let r := getSystemCycleLoop sys.starsIntial fuel ⟨sys.stars, 0, 0, 0, 0⟩
  (r.1, { sys with stars := r.2.stars })

/-- Construction from a list of already-parsed stars: addStar each in
order into an empty system. -/
def mkSystem (requiredSteps : Nat) (stars : List Star) : System :=
  stars.foldl System.addStar ⟨[], [], requiredSteps⟩

/-- The mutating System operations a client can interleave. -/
inductive SysOp where
  | step
  | runSimulation
  | getSystemCycle (fuel : Nat)
  | reset

/-- Apply one operation to a system. -/
def SysOp.apply (sys : System) : SysOp → System
  | SysOp.step => sys.updateSystemByOneStep
  | SysOp.runSimulation => sys.runSimulation
  | SysOp.getSystemCycle fuel => (sys.getSystemCycle fuel).2
  | SysOp.reset => sys.reset

/-- Run a sequence of mutating operations, left to right. -/
def runOps (sys : System) (ops : List SysOp) : System :=
  ops.foldl SysOp.apply sys

/-- A star with the given position and zero velocity, as built by the
input parser. -/
def mkStar (x y z : Int) : Star :=
  ⟨⟨x, y, z⟩, ⟨0, 0, 0⟩, ⟨0, 0, 0⟩⟩

/-- First canonical 4-body sample. -/
def sample1 : List Star :=
  [mkStar (-1) 0 2, mkStar 2 (-10) (-7), mkStar 4 (-8) 8, mkStar 3 5 (-1)]

/-- Second canonical 4-body sample. -/
def sample2 : List Star :=
  [mkStar (-8) (-10) 0, mkStar 5 5 10, mkStar 2 (-7) 3, mkStar 9 (-8) (-3)]

/-- Loop state of the second sample after 500 steps. -/
def s2Chunk1 : LoopState :=
  ⟨[⟨⟨19, 13, 3⟩, ⟨3, 7, 8⟩, ⟨-1, -3, 3⟩⟩,
   ⟨⟨-12, -18, 7⟩, ⟨7, -14, 2⟩, ⟨3, 0, -1⟩⟩,
   ⟨⟨5, -9, 6⟩, ⟨-13, -5, 7⟩, ⟨-3, 0, 1⟩⟩,
   ⟨⟨-4, -6, -6⟩, ⟨3, 12, -17⟩, ⟨1, 3, -3⟩⟩],
   500, 0, 0, 0⟩

/-- Loop state of the second sample after 1000 steps. -/
def s2Chunk2 : LoopState :=
  ⟨[⟨⟨-26, 45, -31⟩, ⟨2, 17, 6⟩, ⟨-1, -1, 3⟩⟩,
   ⟨⟨87, 23, -12⟩, ⟨-14, -13, 9⟩, ⟨-3, -3, 1⟩⟩,
   ⟨⟨-33, -2, -24⟩, ⟨-2, -15, -5⟩, ⟨1, 1, -1⟩⟩,
   ⟨⟨-20, -86, 77⟩, ⟨14, 11, -10⟩, ⟨3, 3, -3⟩⟩],
   1000, 0, 0, 0⟩

/-- Loop state of the second sample after 1500 steps. -/
def s2Chunk3 : LoopState :=
  ⟨[⟨⟨-34, 58, -18⟩, ⟨1, -5, -20⟩, ⟨3, -3, 1⟩⟩,
   ⟨⟨20, 3, 31⟩, ⟨0, -18, 14⟩, ⟨-1, -1, -1⟩⟩,
   ⟨⟨-18, 19, 28⟩, ⟨-3, 14, 4⟩, ⟨1, 1, -3⟩⟩,
   ⟨⟨40, -100, -31⟩, ⟨2, 9, 2⟩, ⟨-3, 3, 3⟩⟩],
   1500, 0, 0, 0⟩

/-- Loop state of the second sample after 2000 steps. -/
def s2Chunk4 : LoopState :=
  ⟨[⟨⟨21, -50, -66⟩, ⟨-1, -22, -2⟩, ⟨-3, 3, 1⟩⟩,
   ⟨⟨2, 37, 96⟩, ⟨1, 27, 0⟩, ⟨-1, -1, -1⟩⟩,
   ⟨⟨-12, -22, 104⟩, ⟨-1, -4, 2⟩, ⟨3, 1, -3⟩⟩,
   ⟨⟨-3, 15, -124⟩, ⟨1, -1, 0⟩, ⟨1, -3, 3⟩⟩],
   2000, 0, 0, 0⟩

/-- Loop state of the second sample after 2500 steps. -/
def s2Chunk5 : LoopState :=
  ⟨[⟨⟨-14, 26, -86⟩, ⟨-10, -27, 1⟩, ⟨1, -3, 1⟩⟩,
   ⟨⟨24, 33, 123⟩, ⟨4, -3, 2⟩, ⟨-3, -1, -3⟩⟩,
   ⟨⟨-2, -32, 117⟩, ⟨8, 17, 4⟩, ⟨3, 1, -1⟩⟩,
   ⟨⟨0, -47, -144⟩, ⟨-2, 13, -7⟩, ⟨-1, 3, 3⟩⟩],
   2500, 2028, 0, 0⟩

/-- Loop state of the second sample after 3000 steps. -/
def s2Chunk6 : LoopState :=
  ⟨[⟨⟨27, 67, 68⟩, ⟨10, 15, 16⟩, ⟨1, -3, -3⟩⟩,
   ⟨⟨-81, -31, -4⟩, ⟨-16, -27, 2⟩, ⟨3, -1, -1⟩⟩,
   ⟨⟨36, -24, -12⟩, ⟨11, 11, -2⟩, ⟨-1, 3, 1⟩⟩,
   ⟨⟨26, -32, -42⟩, ⟨-5, 1, -16⟩, ⟨-3, 1, 3⟩⟩],
   3000, 2028, 0, 0⟩

/-- Loop state of the second sample after 3500 steps. -/
def s2Chunk7 : LoopState :=
  ⟨[⟨⟨16, -8, -9⟩, ⟨-13, -23, 10⟩, ⟨-3, 1, 3⟩⟩,
   ⟨⟨-4, -103, -3⟩, ⟨15, 19, 2⟩, ⟨3, 3, 1⟩⟩,
   ⟨⟨11, 42, 14⟩, ⟨-2, -1, 10⟩, ⟨-1, -1, -1⟩⟩,
   ⟨⟨-15, 49, 8⟩, ⟨0, 5, -22⟩, ⟨1, -3, -3⟩⟩],
   3500, 2028, 0, 0⟩

/-- Loop state of the second sample after 4000 steps. -/
def s2Chunk8 : LoopState :=
  ⟨[⟨⟨-13, -11, 2⟩, ⟨-11, 7, -9⟩, ⟨3, 1, -1⟩⟩,
   ⟨⟨6, 49, 3⟩, ⟨6, -8, -4⟩, ⟨0, -1, 1⟩⟩,
   ⟨⟨6, 69, 29⟩, ⟨-4, 8, -2⟩, ⟨-3, -3, -3⟩⟩,
   ⟨⟨9, -127, -24⟩, ⟨9, -7, 15⟩, ⟨0, 3, 3⟩⟩],
   4000, 2028, 0, 0⟩

/-- Loop state of the second sample after 4500 steps. -/
def s2Chunk9 : LoopState :=
  ⟨[⟨⟨4, 120, 0⟩, ⟨11, 1, 2⟩, ⟨3, -3, 1⟩⟩,
   ⟨⟨0, -38, -5⟩, ⟨-9, 16, 2⟩, ⟨-1, 1, 3⟩⟩,
   ⟨⟨16, -84, 3⟩, ⟨5, -11, 4⟩, ⟨-3, 3, -1⟩⟩,
   ⟨⟨-12, -18, 12⟩, ⟨-7, -6, -8⟩, ⟨1, -1, -3⟩⟩],
   4500, 2028, 0, 0⟩

/-- Loop state of the second sample after 5000 steps. -/
def s2Chunk10 : LoopState :=
  ⟨[⟨⟨30, 75, 17⟩, ⟨-3, -9, -4⟩, ⟨-1, -3, -2⟩⟩,
   ⟨⟨-90, 15, 21⟩, ⟨1, 10, 0⟩, ⟨3, -1, -2⟩⟩,
   ⟨⟨22, 3, 18⟩, ⟨-4, 5, 5⟩, ⟨1, 1, 1⟩⟩,
   ⟨⟨46, -113, -46⟩, ⟨6, -6, -1⟩, ⟨-3, 3, 3⟩⟩],
   5000, 2028, 0, 4702⟩

/-- Loop state of the second sample after 5500 steps. -/
def s2Chunk11 : LoopState :=
  ⟨[⟨⟨19, -17, -22⟩, ⟨4, 0, -9⟩, ⟨0, 1, 3⟩⟩,
   ⟨⟨-50, 15, -16⟩, ⟨7, -10, -8⟩, ⟨3, -3, 1⟩⟩,
   ⟨⟨7, -28, 2⟩, ⟨-8, 5, 2⟩, ⟨0, 3, -1⟩⟩,
   ⟨⟨32, 10, 46⟩, ⟨-3, 5, 15⟩, ⟨-3, -1, -3⟩⟩],
   5500, 2028, 0, 4702⟩

/-- Modelled from the spec's ordering invariant: the phased reference
step, in which velocity integration completes for all bodies (using the
final accumulated gravity deltas) before any position integration
happens. -/
def phasedStep (stars : List Star) : List Star :=
  ((updateGForceAllPairs (stars.map clearGravity)).map Star.updateVelocity).map
    Star.updatePosition

/-- Total momentum on one axis: sum of all bodies' velocity components. -/
def velSum (d : Dim) (stars : List Star) : Int :=
  (stars.map fun s => s.velocity.dim d).sum

/-- Sum of all bodies' accumulated gravity on one axis. -/
def gravSum (d : Dim) (stars : List Star) : Int :=
  (stars.map fun s => s.gravity.dim d).sum

/-- After n steps from stars0, the system matches the snapshot on axis d. -/
def atInitialOnDim (d : Dim) (stars0 init : List Star) (n : Nat) : Prop :=
  isSystemAtInitialStateOnDimension d (stepN n stars0) init = true

/-- c is the first (1-indexed) step count at which axis d matches the
snapshot again. -/
def firstRecurrence (d : Dim) (stars0 init : List Star) (c : Nat) : Prop :=
  1 ≤ c ∧ atInitialOnDim d stars0 init c ∧
    ∀ m, 1 ≤ m → m < c → ¬ atInitialOnDim d stars0 init m

/-- Loop invariant for one axis register: either the register is still 0
and no recurrence has happened in steps 1..count, or it holds the first
recurrence step count. -/
def axisInv (d : Dim) (stars0 init : List Star) (count c : Nat) : Prop :=
  (c = 0 ∧ ∀ m, 1 ≤ m → m ≤ count → ¬ atInitialOnDim d stars0 init m) ∨
    firstRecurrence d stars0 init c

lemma SysOp_apply_starsIntial (sys : System) (op : SysOp) :
    (SysOp.apply sys op).starsIntial = sys.starsIntial := by
  cases op <;> rfl

lemma runOps_starsIntial (ops : List SysOp) (sys : System) :
    (runOps sys ops).starsIntial = sys.starsIntial := by
  induction ops generalizing sys with
  | nil => rfl
  | cons op rest ih =>
    show (runOps (SysOp.apply sys op) rest).starsIntial = _
    rw [ih, SysOp_apply_starsIntial]

lemma foldl_addStar_starsIntial (l : List Star) (sys : System) :
    (l.foldl System.addStar sys).starsIntial = sys.starsIntial ++ l := by
  induction l generalizing sys with
  | nil => simp
  | cons s rest ih =>
    show ((s :: rest).foldl System.addStar sys).starsIntial = _
    rw [List.foldl_cons, ih]
    simp [System.addStar]

lemma foldl_addStar_stars (l : List Star) (sys : System) :
    (l.foldl System.addStar sys).stars = sys.stars ++ l := by
  induction l generalizing sys with
  | nil => simp
  | cons s rest ih =>
    show ((s :: rest).foldl System.addStar sys).stars = _
    rw [List.foldl_cons, ih]
    simp [System.addStar]

lemma mkSystem_starsIntial (req : Nat) (l : List Star) :
    (mkSystem req l).starsIntial = l := by
  simp [mkSystem, foldl_addStar_starsIntial]

lemma mkSystem_stars (req : Nat) (l : List Star) :
    (mkSystem req l).stars = l := by
  simp [mkSystem, foldl_addStar_stars]

/-- C7: the initial snapshot is never mutated: any sequence of step,
runSimulation, getSystemCycle and reset operations leaves `starsIntial`
exactly as it was, and for a system built by addStar calls it stays
exactly the added stars. -/
theorem snapshot_never_mutated :
    ∀ (ops : List SysOp) (sys : System),
      (runOps sys ops).starsIntial = sys.starsIntial ∧
        ∀ (req : Nat) (l : List Star), (runOps (mkSystem req l) ops).starsIntial = l := by
  intro ops sys
  exact ⟨runOps_starsIntial ops sys, fun req l => by
    rw [runOps_starsIntial, mkSystem_starsIntial]⟩

/-- C8: after any operations on a system built from its initial stars,
reset followed by zero steps reproduces exactly the live state (and the
total energy) the system had at construction, and reset is idempotent. -/
theorem reset_restores_initial_state :
    ∀ (req : Nat) (l : List Star) (ops : List SysOp),
      stepN 0 ((runOps (mkSystem req l) ops).reset).stars = (mkSystem req l).stars ∧
        ((runOps (mkSystem req l) ops).reset).getTotalEnergy
          = (mkSystem req l).getTotalEnergy ∧
        ((runOps (mkSystem req l) ops).reset).reset = (runOps (mkSystem req l) ops).reset := by
  intro req l ops
  have h1 : (runOps (mkSystem req l) ops).starsIntial = l := by
    rw [runOps_starsIntial, mkSystem_starsIntial]
  refine ⟨?_, ?_, rfl⟩
  · show ((runOps (mkSystem req l) ops).reset).stars = _
    show (runOps (mkSystem req l) ops).starsIntial = _
    rw [h1, mkSystem_stars]
  · show (((runOps (mkSystem req l) ops).starsIntial).map Star.energy).sum = _
    rw [h1]
    show _ = (((mkSystem req l).stars).map Star.energy).sum
    rw [mkSystem_stars]

/-- C6: a body's total energy is its potential energy times its kinetic
energy, and a body at rest at the origin has energy 0. -/
theorem energy_is_potential_times_kinetic :
    (∀ s : Star, s.energy = s.potentialEnergy * s.kineticEnergy) ∧
      ∀ g : Coordinates, (Star.mk ⟨0, 0, 0⟩ ⟨0, 0, 0⟩ g).energy = 0 := by
  refine ⟨fun s => rfl, fun g => ?_⟩
  simp [Star.energy, Star.potentialEnergy]

/-- C2: one step of the code equals the phased reference step: all
velocity updates (using the final accumulated gravity) happen before all
position updates, and each position update uses the post-step
velocity. -/
theorem step_equals_phasedStep :
    ∀ stars : List Star, updateSystemByOneStep stars = phasedStep stars := by
  intro stars
  simp only [updateSystemByOneStep, phasedStep, List.map_map]
  rfl

lemma Coordinates.dim_accelerate (v g : Coordinates) (d : Dim) :
    (v.accelerate g).dim d = v.dim d + g.dim d := by
  cases d <;> rfl

lemma gravSum_nil (d : Dim) : gravSum d [] = 0 := rfl

lemma gravSum_cons (d : Dim) (s : Star) (l : List Star) :
    gravSum d (s :: l) = s.gravity.dim d + gravSum d l := by
  simp [gravSum]

lemma velSum_cons (d : Dim) (s : Star) (l : List Star) :
    velSum d (s :: l) = s.velocity.dim d + velSum d l := by
  simp [velSum]

lemma updateGForceForPair_gravity_dim (s o : Star) (d : Dim) :
    (Star.updateGForceForPair s o).1.gravity.dim d
        = s.gravity.dim d + gravPull (s.position.dim d) (o.position.dim d) ∧
      (Star.updateGForceForPair s o).2.gravity.dim d
        = o.gravity.dim d - gravPull (s.position.dim d) (o.position.dim d) := by
  cases d <;> exact ⟨rfl, rfl⟩

lemma pairSweep_velocity_map (s : Star) (l : List Star) :
    (pairSweep s l).1.velocity = s.velocity ∧
      (pairSweep s l).2.map Star.velocity = l.map Star.velocity := by
  induction l generalizing s with
  | nil => exact ⟨rfl, rfl⟩
  | cons o rest ih =>
    obtain ⟨ih1, ih2⟩ := ih (Star.updateGForceForPair s o).1
    simp only [pairSweep, List.map_cons]
    exact ⟨ih1, by rw [ih2]; rfl⟩

lemma pairSweep_gravSum (d : Dim) (s : Star) (l : List Star) :
    (pairSweep s l).1.gravity.dim d + gravSum d (pairSweep s l).2
      = s.gravity.dim d + gravSum d l := by
  induction l generalizing s with
  | nil => simp [pairSweep]
  | cons o rest ih =>
    have h := ih (Star.updateGForceForPair s o).1
    have h1 := (updateGForceForPair_gravity_dim s o d).1
    have h2 := (updateGForceForPair_gravity_dim s o d).2
    simp only [pairSweep, gravSum_cons]
    linarith [h, h1, h2]

lemma sweepAll_velocity_map (n : Nat) :
    ∀ l : List Star, (sweepAll n l).map Star.velocity = l.map Star.velocity := by
  induction n with
  | zero => intro l; cases l <;> rfl
  | succ n ih =>
    intro l
    cases l with
    | nil => rfl
    | cons s rest =>
      simp only [sweepAll, List.map_cons]
      rw [ih, (pairSweep_velocity_map s rest).1, (pairSweep_velocity_map s rest).2]

lemma sweepAll_gravSum (d : Dim) (n : Nat) :
    ∀ l : List Star, gravSum d (sweepAll n l) = gravSum d l := by
  induction n with
  | zero => intro l; cases l <;> rfl
  | succ n ih =>
    intro l
    cases l with
    | nil => rfl
    | cons s rest =>
      simp only [sweepAll, gravSum_cons]
      rw [ih]
      exact pairSweep_gravSum d s rest

lemma clearGravity_gravity_dim (s : Star) (d : Dim) :
    (clearGravity s).gravity.dim d = 0 := by
  cases d <;> rfl

lemma gravSum_clear (d : Dim) (l : List Star) :
    gravSum d (l.map clearGravity) = 0 := by
  induction l with
  | nil => rfl
  | cons s rest ih =>
    rw [List.map_cons, gravSum_cons, clearGravity_gravity_dim, ih]
    ring

lemma velSum_eq_of_velocity_map (d : Dim) {l1 l2 : List Star}
    (h : l1.map Star.velocity = l2.map Star.velocity) : velSum d l1 = velSum d l2 := by
  unfold velSum
  rw [show (fun s : Star => s.velocity.dim d) = (fun v : Coordinates => v.dim d) ∘ Star.velocity
    from rfl, ← List.map_map, h, List.map_map]

lemma velSum_clear (d : Dim) (l : List Star) :
    velSum d (l.map clearGravity) = velSum d l := by
  refine velSum_eq_of_velocity_map d ?_
  rw [List.map_map]
  rfl

lemma velSum_update_phase (d : Dim) (l : List Star) :
    velSum d (l.map fun s => s.updateVelocity.updatePosition) = velSum d l + gravSum d l := by
  induction l with
  | nil => rfl
  | cons s rest ih =>
    rw [List.map_cons, velSum_cons, ih, velSum_cons, gravSum_cons]
    have : (s.updateVelocity.updatePosition).velocity.dim d
        = s.velocity.dim d + s.gravity.dim d := by
      show (s.velocity.accelerate s.gravity).dim d = _
      exact Coordinates.dim_accelerate s.velocity s.gravity d
    rw [this]
    ring

lemma velSum_step (d : Dim) (stars : List Star) :
    velSum d (updateSystemByOneStep stars) = velSum d stars := by
  unfold updateSystemByOneStep updateGForceAllPairs
  rw [velSum_update_phase]
  rw [sweepAll_gravSum, gravSum_clear,
    velSum_eq_of_velocity_map d (sweepAll_velocity_map _ (stars.map clearGravity)),
    velSum_clear]
  ring

/-- C3: the per-axis sum of all bodies' velocities (total momentum) is
unchanged by one step, and hence by any number of steps. -/
theorem momentum_conserved :
    ∀ (stars : List Star) (d : Dim),
      velSum d (updateSystemByOneStep stars) = velSum d stars ∧
        ∀ n : Nat, velSum d (stepN n stars) = velSum d stars := by
  intro stars d
  refine ⟨velSum_step d stars, fun n => ?_⟩
  induction n with
  | zero => rfl
  | succ n ih =>
    show velSum d (updateSystemByOneStep (stepN n stars)) = _
    rw [velSum_step, ih]

lemma abs_gravPull_le_one (a b : Int) : |gravPull a b| ≤ 1 := by
  unfold gravPull
  split_ifs <;> simp

lemma pairSweep_head_grav_bound (d : Dim) (s : Star) (l : List Star) :
    |(pairSweep s l).1.gravity.dim d - s.gravity.dim d| ≤ (l.length : Int) := by
  induction l generalizing s with
  | nil => simp [pairSweep]
  | cons o rest ih =>
    have h1 := (updateGForceForPair_gravity_dim s o d).1
    have hsub := ih (Star.updateGForceForPair s o).1
    have hpull := abs_gravPull_le_one (s.position.dim d) (o.position.dim d)
    simp only [pairSweep, List.length_cons]
    have tri := abs_sub_le
      ((pairSweep (Star.updateGForceForPair s o).1 rest).1.gravity.dim d)
      ((Star.updateGForceForPair s o).1.gravity.dim d)
      (s.gravity.dim d)
    have hd : |(Star.updateGForceForPair s o).1.gravity.dim d - s.gravity.dim d|
        = |gravPull (s.position.dim d) (o.position.dim d)| := by
      rw [h1]
      ring_nf
    push_cast
    rw [hd] at tri
    linarith

lemma pairSweep_tail_grav_bound (d : Dim) (s : Star) (l : List Star) :
    List.Forall₂ (fun a b => |b.gravity.dim d - a.gravity.dim d| ≤ 1) l (pairSweep s l).2 := by
  induction l generalizing s with
  | nil => exact List.Forall₂.nil
  | cons o rest ih =>
    simp only [pairSweep]
    refine List.Forall₂.cons ?_ (ih (Star.updateGForceForPair s o).1)
    rw [(updateGForceForPair_gravity_dim s o d).2, abs_sub_comm, sub_sub_cancel]
    exact abs_gravPull_le_one _ _

lemma forall2_abs_trans {f : Star → Int} {j k : Int} :
    ∀ {l1 l2 l3 : List Star},
      List.Forall₂ (fun a b => |f b - f a| ≤ j) l1 l2 →
      List.Forall₂ (fun a b => |f b - f a| ≤ k) l2 l3 →
      List.Forall₂ (fun a b => |f b - f a| ≤ j + k) l1 l3 := by
  intro l1 l2 l3 h12 h23
  induction h12 generalizing l3 with
  | nil =>
    cases h23
    exact List.Forall₂.nil
  | @cons a b t1 t2 hab h ih =>
    cases h23 with
    | @cons _ c _ t3 hbc h' =>
      refine List.Forall₂.cons ?_ (ih h')
      have tri := abs_sub_le (f c) (f b) (f a)
      linarith

lemma sweepAll_grav_bound (d : Dim) :
    ∀ (n : Nat) (l : List Star), l.length = n →
      List.Forall₂ (fun a b => |b.gravity.dim d - a.gravity.dim d| ≤ (n : Int) - 1) l
        (sweepAll n l) := by
  intro n
  induction n with
  | zero =>
    intro l hl
    rw [List.length_eq_zero] at hl
    subst hl
    exact List.Forall₂.nil
  | succ n ih =>
    intro l hl
    cases l with
    | nil => simp at hl
    | cons s rest =>
      have hlen : rest.length = n := by simpa using hl
      simp only [sweepAll]
      refine List.Forall₂.cons ?_ ?_
      · have hh := pairSweep_head_grav_bound d s rest
        rw [hlen] at hh
        push_cast
        linarith
      · have t1 := pairSweep_tail_grav_bound d s rest
        have hlen2 : (pairSweep s rest).2.length = n := by
          rw [← hlen]
          exact t1.length_eq.symm
        have t2 := ih (pairSweep s rest).2 hlen2
        have comp := forall2_abs_trans (f := fun s => s.gravity.dim d) t1 t2
        refine comp.imp ?_
        intro a b hab
        push_cast
        push_cast at hab
        linarith

/-- C10: after the pairwise-gravity accumulation phase of a step, every
body's accumulated gravity on every axis has absolute value at most
n - 1 for an n-body system. -/
theorem gravity_delta_bound :
    ∀ (stars : List Star) (d : Dim) (s' : Star),
      s' ∈ updateGForceAllPairs (stars.map clearGravity) →
      |s'.gravity.dim d| ≤ (stars.length : Int) - 1 := by
  intro stars d s' hs
  have hb := sweepAll_grav_bound d (stars.map clearGravity).length (stars.map clearGravity) rfl
  rw [show updateGForceAllPairs (stars.map clearGravity)
      = sweepAll (stars.map clearGravity).length (stars.map clearGravity) from rfl] at hs
  obtain ⟨i, hget⟩ := List.mem_iff_get.mp hs
  have hlen := hb.length_eq
  have hi2 : (i : Nat) < (stars.map clearGravity).length := by
    have := i.isLt
    omega
  have hr := hb.get hi2 i.isLt
  rw [hget] at hr
  have hzero : ((stars.map clearGravity).get ⟨i, hi2⟩).gravity.dim d = 0 := by
    have hmem : (List.map clearGravity stars).get ⟨i, hi2⟩ ∈ List.map clearGravity stars :=
      List.get_mem _ _ _
    obtain ⟨t, _, ht⟩ := List.mem_map.mp hmem
    rw [← ht]
    exact clearGravity_gravity_dim t d
  rw [hzero, sub_zero] at hr
  simpa using hr

lemma getSystemCycleLoop_zero (init : List Star) (σ : LoopState) :
    getSystemCycleLoop init 0 σ =
      if σ.xC ≠ 0 ∧ σ.yC ≠ 0 ∧ σ.zC ≠ 0 then (some (lcm σ.xC (lcm σ.yC σ.zC)), σ)
      else (none, σ) := rfl

lemma getSystemCycleLoop_succ (init : List Star) (fuel : Nat) (σ : LoopState) :
    getSystemCycleLoop init (fuel + 1) σ =
      if σ.xC ≠ 0 ∧ σ.yC ≠ 0 ∧ σ.zC ≠ 0 then (some (lcm σ.xC (lcm σ.yC σ.zC)), σ)
      else
        getSystemCycleLoop init fuel
          ⟨updateSystemByOneStep σ.stars, σ.count + 1,
            if σ.xC = 0 ∧ isSystemAtInitialStateOnDimension Dim.x (updateSystemByOneStep σ.stars) init
              then σ.count + 1 else σ.xC,
            if σ.yC = 0 ∧ isSystemAtInitialStateOnDimension Dim.y (updateSystemByOneStep σ.stars) init
              then σ.count + 1 else σ.yC,
            if σ.zC = 0 ∧ isSystemAtInitialStateOnDimension Dim.z (updateSystemByOneStep σ.stars) init
              then σ.count + 1 else σ.zC⟩ := rfl

lemma axisInv_zero (d : Dim) (stars0 init : List Star) : axisInv d stars0 init 0 0 :=
  Or.inl ⟨rfl, fun _ hm1 hm0 => absurd (Nat.le_trans hm1 hm0) (by omega)⟩

lemma axisInv_step (d : Dim) (stars0 init : List Star) (count c : Nat)
    (h : axisInv d stars0 init count c) :
    axisInv d stars0 init (count + 1)
      (if c = 0 ∧ isSystemAtInitialStateOnDimension d (stepN (count + 1) stars0) init
        then count + 1 else c) := by
  rcases h with ⟨hc0, hall⟩ | hFR
  · subst hc0
    by_cases hchk : isSystemAtInitialStateOnDimension d (stepN (count + 1) stars0) init = true
    · rw [if_pos ⟨rfl, hchk⟩]
      exact Or.inr ⟨Nat.succ_le_succ (Nat.zero_le _), hchk,
        fun m h1 h2 => hall m h1 (by omega)⟩
    · rw [if_neg (fun hand => hchk hand.2)]
      refine Or.inl ⟨rfl, fun m h1 h2 => ?_⟩
      rcases Nat.lt_or_ge m (count + 1) with hm | hm
      · exact hall m h1 (by omega)
      · have hmeq : m = count + 1 := by omega
        subst hmeq
        exact hchk
  · have hc : c ≠ 0 := by
      have := hFR.1
      omega
    rw [if_neg (fun hand => hc hand.1)]
    exact Or.inr hFR

lemma getSystemCycleLoop_sound (stars0 init : List Star) :
    ∀ (fuel : Nat), ∀ (count xC yC zC r : Nat) (σ' : LoopState),
      axisInv Dim.x stars0 init count xC →
      axisInv Dim.y stars0 init count yC →
      axisInv Dim.z stars0 init count zC →
      getSystemCycleLoop init fuel ⟨stepN count stars0, count, xC, yC, zC⟩ = (some r, σ') →
      ∃ cx cy cz,
        firstRecurrence Dim.x stars0 init cx ∧ firstRecurrence Dim.y stars0 init cy ∧
          firstRecurrence Dim.z stars0 init cz ∧ r = lcm cx (lcm cy cz) := by
  intro fuel
  induction fuel with
  | zero =>
    intro count xC yC zC r σ' hx hy hz h
    rw [getSystemCycleLoop_zero] at h
    by_cases hdone : xC ≠ 0 ∧ yC ≠ 0 ∧ zC ≠ 0
    · rw [if_pos hdone] at h
      have hFRx := hx.resolve_left fun hl => hdone.1 hl.1
      have hFRy := hy.resolve_left fun hl => hdone.2.1 hl.1
      have hFRz := hz.resolve_left fun hl => hdone.2.2 hl.1
      injection h with h1 h2
      injection h1 with h1
      exact ⟨xC, yC, zC, hFRx, hFRy, hFRz, h1.symm⟩
    · rw [if_neg hdone] at h
      injection h with h1 h2
      exact absurd h1 (by simp)
  | succ fuel ih =>
    intro count xC yC zC r σ' hx hy hz h
    rw [getSystemCycleLoop_succ] at h
    by_cases hdone : xC ≠ 0 ∧ yC ≠ 0 ∧ zC ≠ 0
    · rw [if_pos hdone] at h
      have hFRx := hx.resolve_left fun hl => hdone.1 hl.1
      have hFRy := hy.resolve_left fun hl => hdone.2.1 hl.1
      have hFRz := hz.resolve_left fun hl => hdone.2.2 hl.1
      injection h with h1 h2
      injection h1 with h1
      exact ⟨xC, yC, zC, hFRx, hFRy, hFRz, h1.symm⟩
    · rw [if_neg hdone] at h
      have hstep : updateSystemByOneStep (stepN count stars0) = stepN (count + 1) stars0 := rfl
      rw [hstep] at h
      exact ih (count + 1) _ _ _ r σ' (axisInv_step Dim.x stars0 init count xC hx)
        (axisInv_step Dim.y stars0 init count yC hy)
        (axisInv_step Dim.z stars0 init count zC hz) h

/-- C1: whenever getSystemCycle returns a value for a system with at
least one body, that value is the least common multiple (computed
pairwise as a*b/gcd) of the three per-axis first recurrence step
counts: the first 1-indexed step counts at which every body's position
and velocity on that axis simultaneously match the initial snapshot. -/
theorem getSystemCycle_characterization (sys : System) (fuel r : Nat)
    (_hne : sys.stars ≠ []) (h : (sys.getSystemCycle fuel).1 = some r) :
    ∃ cx cy cz,
      firstRecurrence Dim.x sys.stars sys.starsIntial cx ∧
        firstRecurrence Dim.y sys.stars sys.starsIntial cy ∧
          firstRecurrence Dim.z sys.stars sys.starsIntial cz ∧
            r = lcm cx (lcm cy cz) := by
  have h2 : getSystemCycleLoop sys.starsIntial fuel ⟨sys.stars, 0, 0, 0, 0⟩ =
      ((getSystemCycleLoop sys.starsIntial fuel ⟨sys.stars, 0, 0, 0, 0⟩).1,
        (getSystemCycleLoop sys.starsIntial fuel ⟨sys.stars, 0, 0, 0, 0⟩).2) := rfl
  have h3 : (getSystemCycleLoop sys.starsIntial fuel ⟨sys.stars, 0, 0, 0, 0⟩).1 = some r := h
  rw [h3] at h2
  exact getSystemCycleLoop_sound sys.stars sys.starsIntial fuel 0 0 0 0 r _
    (axisInv_zero Dim.x sys.stars sys.starsIntial)
    (axisInv_zero Dim.y sys.stars sys.starsIntial)
    (axisInv_zero Dim.z sys.stars sys.starsIntial) h2

/-- Concrete one-body system used as a witness input. -/
def witSys : System := ⟨[mkStar 0 0 0], [mkStar 0 0 0], 0⟩

/-- Witness for C1: a single resting body at the origin recurs on every
axis after one step, and getSystemCycle returns 1 for it. -/
theorem getSystemCycle_characterization_witness :
    ∃ cx cy cz,
      firstRecurrence Dim.x witSys.stars witSys.starsIntial cx ∧
        firstRecurrence Dim.y witSys.stars witSys.starsIntial cy ∧
          firstRecurrence Dim.z witSys.stars witSys.starsIntial cz ∧
            1 = lcm cx (lcm cy cz) :=
  getSystemCycle_characterization witSys 1 1 (by decide) (by decide)

lemma getSystemCycleLoop_none_add (init : List Star) :
    ∀ (a b : Nat) (σ τ : LoopState),
      getSystemCycleLoop init a σ = (none, τ) →
      getSystemCycleLoop init (a + b) σ = getSystemCycleLoop init b τ := by
  intro a
  induction a with
  | zero =>
    intro b σ τ h
    rw [getSystemCycleLoop_zero] at h
    by_cases hdone : σ.xC ≠ 0 ∧ σ.yC ≠ 0 ∧ σ.zC ≠ 0
    · rw [if_pos hdone] at h
      exact absurd (congrArg Prod.fst h) (by simp)
    · rw [if_neg hdone] at h
      injection h with h1 h2
      rw [Nat.zero_add, h2]
  | succ a ih =>
    intro b σ τ h
    rw [getSystemCycleLoop_succ] at h
    rw [show a + 1 + b = (a + b) + 1 by omega, getSystemCycleLoop_succ]
    by_cases hdone : σ.xC ≠ 0 ∧ σ.yC ≠ 0 ∧ σ.zC ≠ 0
    · rw [if_pos hdone] at h
      exact absurd (congrArg Prod.fst h) (by simp)
    · rw [if_neg hdone] at h
      rw [if_neg hdone]
      exact ih b _ τ h

lemma getSystemCycleLoop_some_mono (init : List Star) :
    ∀ (a b : Nat) (σ : LoopState) (r : Nat),
      (getSystemCycleLoop init a σ).1 = some r →
      (getSystemCycleLoop init (a + b) σ).1 = some r := by
  intro a
  induction a with
  | zero =>
    intro b σ r h
    rw [getSystemCycleLoop_zero] at h
    by_cases hdone : σ.xC ≠ 0 ∧ σ.yC ≠ 0 ∧ σ.zC ≠ 0
    · rw [if_pos hdone] at h
      rw [Nat.zero_add]
      cases b with
      | zero => rw [getSystemCycleLoop_zero, if_pos hdone]; exact h
      | succ b => rw [getSystemCycleLoop_succ, if_pos hdone]; exact h
    · rw [if_neg hdone] at h
      exact absurd h (by simp)
  | succ a ih =>
    intro b σ r h
    rw [getSystemCycleLoop_succ] at h
    rw [show a + 1 + b = (a + b) + 1 by omega, getSystemCycleLoop_succ]
    by_cases hdone : σ.xC ≠ 0 ∧ σ.yC ≠ 0 ∧ σ.zC ≠ 0
    · rw [if_pos hdone] at h
      rw [if_pos hdone]
      exact h
    · rw [if_neg hdone] at h
      rw [if_neg hdone]
      exact ih b _ r h

/-- C9: for a system with zero bodies, getSystemCycle terminates after
exactly one step with result 1 (any fuel allowing one iteration
suffices; fuel 0 does not), because the per-axis check is vacuously
true over the empty body list. -/
theorem getSystemCycle_empty :
    ∀ (init : List Star) (req fuel : Nat),
      ((System.mk [] init req).getSystemCycle (fuel + 1)).1 = some 1 ∧
        ((System.mk [] init req).getSystemCycle 0).1 = none := by
  intro init req fuel
  have hchk : ∀ d : Dim,
      isSystemAtInitialStateOnDimension d (updateSystemByOneStep []) init = true := by
    intro d
    show isSystemAtInitialStateOnDimension d [] init = true
    simp [isSystemAtInitialStateOnDimension]
  constructor
  · show (getSystemCycleLoop init (fuel + 1) ⟨[], 0, 0, 0, 0⟩).1 = some 1
    rw [getSystemCycleLoop_succ, if_neg (by simp)]
    rw [if_pos ⟨rfl, hchk Dim.x⟩, if_pos ⟨rfl, hchk Dim.y⟩, if_pos ⟨rfl, hchk Dim.z⟩]
    cases fuel with
    | zero => rw [getSystemCycleLoop_zero, if_pos (by simp)]; rfl
    | succ fuel => rw [getSystemCycleLoop_succ, if_pos (by simp)]; rfl
  · show (getSystemCycleLoop init 0 ⟨[], 0, 0, 0, 0⟩).1 = none
    rw [getSystemCycleLoop_zero, if_neg (by simp)]

lemma s2_run_1 : getSystemCycleLoop sample2 500 ⟨sample2, 0, 0, 0, 0⟩ = (none, s2Chunk1) := by
  decide!

lemma s2_run_2 : getSystemCycleLoop sample2 500 s2Chunk1 = (none, s2Chunk2) := by
  decide!

lemma s2_run_3 : getSystemCycleLoop sample2 500 s2Chunk2 = (none, s2Chunk3) := by
  decide!

lemma s2_run_4 : getSystemCycleLoop sample2 500 s2Chunk3 = (none, s2Chunk4) := by
  decide!

lemma s2_run_5 : getSystemCycleLoop sample2 500 s2Chunk4 = (none, s2Chunk5) := by
  decide!

lemma s2_run_6 : getSystemCycleLoop sample2 500 s2Chunk5 = (none, s2Chunk6) := by
  decide!

lemma s2_run_7 : getSystemCycleLoop sample2 500 s2Chunk6 = (none, s2Chunk7) := by
  decide!

lemma s2_run_8 : getSystemCycleLoop sample2 500 s2Chunk7 = (none, s2Chunk8) := by
  decide!

lemma s2_run_9 : getSystemCycleLoop sample2 500 s2Chunk8 = (none, s2Chunk9) := by
  decide!

lemma s2_run_10 : getSystemCycleLoop sample2 500 s2Chunk9 = (none, s2Chunk10) := by
  decide!

lemma s2_run_11 : getSystemCycleLoop sample2 500 s2Chunk10 = (none, s2Chunk11) := by
  decide!

lemma s2_run_fin : (getSystemCycleLoop sample2 398 s2Chunk11).1 = some 4686774924 := by
  decide!

lemma s1_cycle : (getSystemCycleLoop sample1 44 ⟨sample1, 0, 0, 0, 0⟩).1 = some 2772 := by
  decide!

lemma s2_cycle : (getSystemCycleLoop sample2 5898 ⟨sample2, 0, 0, 0, 0⟩).1 = some 4686774924 := by
  rw [show (5898 : Nat) = 500 + 5398 from rfl,
    getSystemCycleLoop_none_add sample2 500 5398 _ _ s2_run_1]
  rw [show (5398 : Nat) = 500 + 4898 from rfl,
    getSystemCycleLoop_none_add sample2 500 4898 _ _ s2_run_2]
  rw [show (4898 : Nat) = 500 + 4398 from rfl,
    getSystemCycleLoop_none_add sample2 500 4398 _ _ s2_run_3]
  rw [show (4398 : Nat) = 500 + 3898 from rfl,
    getSystemCycleLoop_none_add sample2 500 3898 _ _ s2_run_4]
  rw [show (3898 : Nat) = 500 + 3398 from rfl,
    getSystemCycleLoop_none_add sample2 500 3398 _ _ s2_run_5]
  rw [show (3398 : Nat) = 500 + 2898 from rfl,
    getSystemCycleLoop_none_add sample2 500 2898 _ _ s2_run_6]
  rw [show (2898 : Nat) = 500 + 2398 from rfl,
    getSystemCycleLoop_none_add sample2 500 2398 _ _ s2_run_7]
  rw [show (2398 : Nat) = 500 + 1898 from rfl,
    getSystemCycleLoop_none_add sample2 500 1898 _ _ s2_run_8]
  rw [show (1898 : Nat) = 500 + 1398 from rfl,
    getSystemCycleLoop_none_add sample2 500 1398 _ _ s2_run_9]
  rw [show (1398 : Nat) = 500 + 898 from rfl,
    getSystemCycleLoop_none_add sample2 500 898 _ _ s2_run_10]
  rw [show (898 : Nat) = 500 + 398 from rfl,
    getSystemCycleLoop_none_add sample2 500 398 _ _ s2_run_11]
  exact s2_run_fin

/-- C4: after reset, getSystemCycle returns 2772 for the first canonical
sample and 4686774924 for the second, for any sufficient fuel. -/
theorem canonical_cycle_lengths :
    ∀ extra : Nat,
      ((mkSystem 0 sample1).reset.getSystemCycle (44 + extra)).1 = some 2772 ∧
        ((mkSystem 0 sample2).reset.getSystemCycle (5898 + extra)).1 = some 4686774924 := by
  intro extra
  constructor
  · show (getSystemCycleLoop sample1 (44 + extra) ⟨sample1, 0, 0, 0, 0⟩).1 = some 2772
    exact getSystemCycleLoop_some_mono sample1 44 extra _ _ s1_cycle
  · show (getSystemCycleLoop sample2 (5898 + extra) ⟨sample2, 0, 0, 0, 0⟩).1 = some 4686774924
    exact getSystemCycleLoop_some_mono sample2 5898 extra _ _ s2_cycle

/-- C5 counterexample: the claim as stated is false, because after 100
steps the first canonical sample's total energy is not 1940. -/
theorem canonical_energies_claim_false :
    ¬ ((mkSystem 10 sample1).runSimulation.getTotalEnergy = 179 ∧
        (mkSystem 100 sample1).runSimulation.getTotalEnergy = 1940) := by
  decide!

/-- C5 amended: for the first canonical sample the total energy after 10
steps is 179 and after 100 steps it is 293. -/
theorem canonical_energies :
    (mkSystem 10 sample1).runSimulation.getTotalEnergy = 179 ∧
      (mkSystem 100 sample1).runSimulation.getTotalEnergy = 293 := by
  decide!

/-- Witness for C10: in a concrete two-body system, the body that ends
the gravity phase with gravity (1,1,1) satisfies the bound. -/
theorem gravity_delta_bound_witness :
    |(Star.mk ⟨0, 0, 0⟩ ⟨0, 0, 0⟩ ⟨1, 1, 1⟩).gravity.dim Dim.x|
      ≤ (([mkStar 0 0 0, mkStar 1 2 3] : List Star).length : Int) - 1 :=
  gravity_delta_bound [mkStar 0 0 0, mkStar 1 2 3] Dim.x
    (Star.mk ⟨0, 0, 0⟩ ⟨0, 0, 0⟩ ⟨1, 1, 1⟩) (by decide)

end Day12
